import Mathlib

/-!
Verification of the orchestration pipeline of `app.py` (TechSangam).

The program is a Streamlit UI around a single pure-control-flow function
`process_inputs(audio_filepath, image_filepath)` that sequences four
external services (speech-to-text, image encoding + vision query, and two
text-to-speech providers) with per-stage exception handling.

We shallowly embed the pipeline as a total Lean function parameterised by
an `Env` recording, for each external call, whether it succeeds (with what
value) or raises (modelled as `Except`).  The embedding additionally
records the list of external calls actually performed, with their exact
arguments, so that claims about which services are invoked and with what
inputs are expressible.  Python string truthiness (`if s:`) is modelled
explicitly, as is the `os.path.exists` filesystem check.
-/

/-- The fixed system prompt of `app.py` (module-level `system_prompt`),
reproduced byte-for-byte including trailing spaces and newlines. -/
def system_prompt : String :=
  "You have to act as a professional doctor, i know you are not but this is for learning purpose. \n            What\x27s in this image?. Do you find anything wrong with it medically? \n            If you make a differential, suggest some remedies for them. Donot add any numbers or special characters in \n            your response. Your response should be in one long paragraph. Also always answer as if you are answering to a real person.\n            Donot say \x27In the image I see\x27 but say \x27With what I see, I think you have ....\x27\n            Dont respond as an AI model in markdown, your answer should mimic that of an actual doctor not an AI bot, \n            Keep your answer concise (max 2 sentences). No preamble, start your answer right away please"

/-- The speech-to-text model name passed to `transcribe_with_groq`. -/
def sttModel : String := "whisper-large-v3"

/-- The vision model identifier passed to `analyze_image_with_query`. -/
def visionModel : String := "meta-llama/llama-4-scout-17b-16e-instruct"

/-- The sentinel response produced when no image is available
(`"No image provided for me to analyze"`). -/
def noImageSentinel : String := "No image provided for me to analyze"

/-- The fixed output filename for synthesized speech. -/
def voiceOutputPath : String := "doctor_response.mp3"

/-- The placeholder transcript substituted when transcription raises. -/
def transcribeErrorText : String := "Error transcribing audio"

/-- The placeholder response substituted when image analysis raises. -/
def analyzeErrorText : String := "Error analyzing image"

/-- One external call performed by the pipeline, with its exact arguments:
transcription (audio path), image encoding (image path), vision query
(query text, encoded image, model id), primary TTS and fallback TTS
(input text, output path). -/
inductive CallEvent where
  | transcribeCall (audioPath : String)
  | encodeCall (imagePath : String)
  | analyzeCall (query : String) (encodedImage : String) (model : String)
  | elevenCall (inputText : String) (outputPath : String)
  | gttsCall (inputText : String) (outputPath : String)
deriving DecidableEq, Repr

/-- The environment a pipeline run executes in: the filesystem
(`os.path.exists`) and the outcome of each external call.  `Except.error`
models the call raising an exception (with its message). -/
structure Env where
  fsExists : String → Bool
  transcribeResult : String → Except String String
  encodeResult : String → Except String String
  analyzeResult : String → String → String → Except String String
  elevenResult : String → String → Except String Unit
  gttsResult : String → String → Except String Unit

/-- Python truthiness of an optional string: `None` and `""` are falsy. -/
def pyTruthy : Option String → Bool
  | none => false
  | some s => !(s == "")

/-- The guard `path and os.path.exists(path)` of `process_inputs`. -/
def pathPresent (env : Env) (p : Option String) : Bool :=
  match p with
  | none => false
  | some s => !(s == "") && env.fsExists s

/-- The audio block of `process_inputs` (app.py lines 44-56): if the audio
path is truthy and exists, attempt transcription; on exception substitute
`"Error transcribing audio"`; otherwise the transcript stays `""`.
Returns the transcript together with the external calls performed. -/
def audioStage (env : Env) (audio : Option String) : String × List CallEvent :=
  match audio with
  | none => ("", [])
  | some p =>
    if !(p == "") && env.fsExists p then
      match env.transcribeResult p with
      | Except.ok t => (t, [CallEvent.transcribeCall p])
      | Except.error _ => (transcribeErrorText, [CallEvent.transcribeCall p])
    else ("", [])

/-- The image block of `process_inputs` (app.py lines 58-71): if the image
path is truthy and exists, encode it and query the vision model with
`system_prompt + transcript`; on exception (in either call) substitute
`"Error analyzing image"`; otherwise the response is the no-image
sentinel. -/
def imageStage (env : Env) (image : Option String) (stt : String) :
    String × List CallEvent :=
  match image with
  | none => (noImageSentinel, [])
  | some p =>
    if !(p == "") && env.fsExists p then
      match env.encodeResult p with
      | Except.error _ => (analyzeErrorText, [CallEvent.encodeCall p])
      | Except.ok enc =>
        match env.analyzeResult (system_prompt ++ stt) enc visionModel with
        | Except.ok r =>
            (r, [CallEvent.encodeCall p,
                 CallEvent.analyzeCall (system_prompt ++ stt) enc visionModel])
        | Except.error _ =>
            (analyzeErrorText,
             [CallEvent.encodeCall p,
              CallEvent.analyzeCall (system_prompt ++ stt) enc visionModel])
    else (noImageSentinel, [])

/-- The voice block of `process_inputs` (app.py lines 73-92): if the
response is truthy and not the no-image sentinel, set the output path to
`doctor_response.mp3` and attempt primary synthesis (ElevenLabs); on
exception attempt the fallback (gTTS) with the same text and path; if the
fallback also raises, the path becomes `None`. -/
def voiceStage (env : Env) (doctorResponse : String) :
    Option String × List CallEvent :=
  if !(doctorResponse == "") && !(doctorResponse == noImageSentinel) then
    match env.elevenResult doctorResponse voiceOutputPath with
    | Except.ok _ =>
        (some voiceOutputPath,
         [CallEvent.elevenCall doctorResponse voiceOutputPath])
    | Except.error _ =>
        match env.gttsResult doctorResponse voiceOutputPath with
        | Except.ok _ =>
            (some voiceOutputPath,
             [CallEvent.elevenCall doctorResponse voiceOutputPath,
              CallEvent.gttsCall doctorResponse voiceOutputPath])
        | Except.error _ =>
            (none,
             [CallEvent.elevenCall doctorResponse voiceOutputPath,
              CallEvent.gttsCall doctorResponse voiceOutputPath])
  else (none, [])

/-- The value returned by `process_inputs`: the triple
`(speech_to_text_output, doctor_response, voice_filepath)`, plus the
trace of external calls performed during the run. -/
structure PipelineResult where
  transcript : String
  response : String
  voicePath : Option String
  trace : List CallEvent
deriving DecidableEq, Repr

/-- `process_inputs(audio_filepath, image_filepath)` of app.py lines
42-94: the audio block, then the image block (whose prompt includes the
transcript produced by the audio block), then the voice block on the
resulting response. -/
def process_inputs (env : Env) (audio image : Option String) :
    PipelineResult :=
  let a := audioStage env audio
  let i := imageStage env image a.1
  let v := voiceStage env i.1
  { transcript := a.1
    response := i.1
    voicePath := v.1
    trace := a.2 ++ i.2 ++ v.2 }

/-- Session state of the UI: a key-value store (association list), as
`st.session_state` is used by `main`. -/
abbrev SessionState : Type := List (String × String)

/-- `del st.session_state[key]`: remove every binding of `key`. -/
def delKey (s : SessionState) (k : String) : SessionState :=
  s.filter (fun kv => !(kv.1 == k))

/-- The Clear Cache handler of `main` (app.py lines 227-230):
`for key in list(st.session_state.keys()): del st.session_state[key]` —
fold deletion over a snapshot of the current keys. -/
def clearSession (s : SessionState) : SessionState :=
  (s.map Prod.fst).foldl delKey s

/-- What the Analyze button handler does (app.py lines 156-167): either it
shows a warning without running the pipeline, or it runs `process_inputs`
on the session's current paths. -/
inductive AnalyzeAction where
  | warned
  | ran (result : PipelineResult)
deriving DecidableEq, Repr

/-- The Analyze button handler of `main` (app.py lines 156-167): if
neither the stored audio path nor the stored image path is truthy, warn;
otherwise invoke `process_inputs` on them. -/
def analyzeHandler (env : Env) (currentAudio currentImage : Option String) :
    AnalyzeAction :=
  if !(pyTruthy currentAudio) && !(pyTruthy currentImage) then
    AnalyzeAction.warned
  else
    AnalyzeAction.ran (process_inputs env currentAudio currentImage)

/-- C1: if neither the audio path nor the image path is present (truthy
and existing on disk), `process_inputs` returns the empty transcript, the
exact response `"No image provided for me to analyze"`, a null audio
path, and performs no external call at all. -/
theorem C1_no_inputs_short_circuit (env : Env) (audio image : Option String)
    (ha : pathPresent env audio = false)
    (hi : pathPresent env image = false) :
    process_inputs env audio image =
      { transcript := ""
        response := noImageSentinel
        voicePath := none
        trace := [] } := by
  have haux : audioStage env audio = ("", []) := by
    cases audio with
    | none => rfl
    | some p =>
      simp only [pathPresent] at ha
      simp [audioStage, ha]
  have himg : imageStage env image "" = (noImageSentinel, []) := by
    cases image with
    | none => rfl
    | some p =>
      simp only [pathPresent] at hi
      simp [imageStage, hi]
  simp [process_inputs, haux, himg, voiceStage, noImageSentinel]

/-- Witness for C1 at a concrete environment and inputs. -/
def envAllFail : Env :=
  { fsExists := fun _ => false
    transcribeResult := fun _ => Except.error "network"
    encodeResult := fun _ => Except.error "io"
    analyzeResult := fun _ _ _ => Except.error "network"
    elevenResult := fun _ _ => Except.error "quota"
    gttsResult := fun _ _ => Except.error "network" }

/-- C1 witness: at a concrete environment with no files on disk and both
paths absent, the theorem applies and yields the sentinel triple. -/
theorem C1_no_inputs_short_circuit_witness :
    process_inputs envAllFail none none =
      { transcript := ""
        response := noImageSentinel
        voicePath := none
        trace := [] } :=
  C1_no_inputs_short_circuit envAllFail none none rfl rfl

/-- All keys of the store being in the folded-over snapshot makes the
key-deletion fold empty the store. -/
theorem foldl_delKey_eq_nil (ks : List String) :
    ∀ s : SessionState, (∀ kv ∈ s, kv.1 ∈ ks) →
      List.foldl delKey s ks = [] := by
  induction ks with
  | nil =>
    intro s h
    cases s with
    | nil => rfl
    | cons kv t => exact absurd (h kv (List.mem_cons_self kv t)) (List.not_mem_nil _)
  | cons k ks ih =>
    intro s h
    simp only [List.foldl_cons]
    apply ih
    intro kv hkv
    simp only [delKey, List.mem_filter] at hkv
    have h3 : kv.1 ≠ k := by simpa using hkv.2
    cases List.mem_cons.mp (h kv hkv.1) with
    | inl he => exact absurd he h3
    | inr hm => exact hm

/-- The Clear Cache loop empties the session state. -/
theorem clearSession_eq_nil (s : SessionState) : clearSession s = [] :=
  foldl_delKey_eq_nil (s.map Prod.fst) s
    (fun _kv hkv => List.mem_map_of_mem Prod.fst hkv)

/-- C7: the Clear Cache action removes every key from the session state,
and running it twice in a row leaves the state empty both times. -/
theorem C7_reset_clears_and_idempotent (s : SessionState) :
    clearSession s = [] ∧ clearSession (clearSession s) = [] :=
  ⟨clearSession_eq_nil s, by
    rw [clearSession_eq_nil s]; exact clearSession_eq_nil []⟩

/-- C8: the Analyze handler warns (and does not run the pipeline) when
both stored paths are null, and whenever it does run the pipeline at
least one stored path is non-null and the run is exactly
`process_inputs` on those paths. -/
theorem C8_analyze_guard (env : Env) (ca ci : Option String) :
    (ca = none ∧ ci = none → analyzeHandler env ca ci = AnalyzeAction.warned) ∧
    (∀ r, analyzeHandler env ca ci = AnalyzeAction.ran r →
      (ca ≠ none ∨ ci ≠ none) ∧ r = process_inputs env ca ci) := by
  constructor
  · rintro ⟨rfl, rfl⟩
    rfl
  · intro r hr
    unfold analyzeHandler at hr
    by_cases hA : pyTruthy ca = true
    · refine ⟨Or.inl ?_, ?_⟩
      · cases ca with
        | none => simp [pyTruthy] at hA
        | some s => simp
      · rw [hA] at hr
        simp at hr
        exact hr.symm
    · have hA' : pyTruthy ca = false := by
        cases hx : pyTruthy ca with
        | false => rfl
        | true => exact absurd hx hA
      by_cases hB : pyTruthy ci = true
      · refine ⟨Or.inr ?_, ?_⟩
        · cases ci with
          | none => simp [pyTruthy] at hB
          | some s => simp
        · rw [hA', hB] at hr
          simp at hr
          exact hr.symm
      · have hB' : pyTruthy ci = false := by
          cases hx : pyTruthy ci with
          | false => rfl
          | true => exact absurd hx hB
        rw [hA', hB'] at hr
        simp at hr

/-- When the response is truthy, not the sentinel, and primary synthesis
raises, the voice block calls the fallback with the same text and path,
and yields a null path exactly when the fallback also raises. -/
theorem voiceStage_primary_raises (env : Env) (r e1 : String)
    (hr : r ≠ "") (hs : r ≠ noImageSentinel)
    (hp : env.elevenResult r voiceOutputPath = Except.error e1) :
    (voiceStage env r).2 =
      [CallEvent.elevenCall r voiceOutputPath,
       CallEvent.gttsCall r voiceOutputPath] ∧
    ((∀ e2, env.gttsResult r voiceOutputPath = Except.error e2 →
        (voiceStage env r).1 = none) ∧
     (∀ u, env.gttsResult r voiceOutputPath = Except.ok u →
        (voiceStage env r).1 = some voiceOutputPath)) := by
  have hcond : (!(r == "") && !(r == noImageSentinel)) = true := by
    simp [hr, hs]
  cases hg : env.gttsResult r voiceOutputPath with
  | ok u => simp [voiceStage, hcond, hp, hg]
  | error e2 => simp [voiceStage, hcond, hp, hg]

/-- C2: whenever a model response exists (truthy, non-sentinel) and the
primary synthesis raises, the fallback is invoked with the identical
input text and identical output path (it appears in the call trace), and
if the fallback also raises the returned audio path is null; the
embedded pipeline is a total function, so no exception escapes. -/
theorem C2_fallback_same_text_and_path (env : Env) (audio image : Option String)
    (e1 : String)
    (hr : (process_inputs env audio image).response ≠ "")
    (hs : (process_inputs env audio image).response ≠ noImageSentinel)
    (hp : env.elevenResult (process_inputs env audio image).response
            voiceOutputPath = Except.error e1) :
    CallEvent.gttsCall (process_inputs env audio image).response voiceOutputPath
        ∈ (process_inputs env audio image).trace ∧
    ∀ e2, env.gttsResult (process_inputs env audio image).response
            voiceOutputPath = Except.error e2 →
      (process_inputs env audio image).voicePath = none := by
  have hresp : (process_inputs env audio image).response =
      (imageStage env image (audioStage env audio).1).1 := rfl
  rw [hresp] at hp hr hs ⊢
  have hv := voiceStage_primary_raises env
      (imageStage env image (audioStage env audio).1).1 e1 hr hs hp
  constructor
  · have htr : (process_inputs env audio image).trace =
        (audioStage env audio).2 ++
        (imageStage env image (audioStage env audio).1).2 ++
        (voiceStage env (imageStage env image (audioStage env audio).1).1).2 := rfl
    rw [htr, hv.1]
    simp
  · intro e2 hg
    have hvp : (process_inputs env audio image).voicePath =
        (voiceStage env (imageStage env image (audioStage env audio).1).1).1 := rfl
    rw [hvp]
    exact hv.2.1 e2 hg

/-- A concrete environment where the image analysis succeeds but both
synthesis providers raise. -/
def envFallback : Env :=
  { fsExists := fun _ => true
    transcribeResult := fun _ => Except.ok "hello doctor"
    encodeResult := fun _ => Except.ok "ENCODEDIMG"
    analyzeResult := fun _ _ _ => Except.ok "You have a mild bruise"
    elevenResult := fun _ _ => Except.error "quota exceeded"
    gttsResult := fun _ _ => Except.error "network down" }

/-- C2 witness: at the concrete environment, the fallback call with the
same text and path is in the trace and the audio path is null. -/
theorem C2_fallback_same_text_and_path_witness :
    CallEvent.gttsCall (process_inputs envFallback none (some "img.jpg")).response
        voiceOutputPath ∈ (process_inputs envFallback none (some "img.jpg")).trace ∧
    (process_inputs envFallback none (some "img.jpg")).voicePath = none :=
  have h := C2_fallback_same_text_and_path envFallback none (some "img.jpg")
    "quota exceeded" (by decide) (by decide) rfl
  ⟨h.1, h.2 "network down" rfl⟩

/-- An absent (null, empty, or non-existing) audio path leaves the audio
block untouched: empty transcript, no call. -/
theorem audioStage_absent (env : Env) (audio : Option String)
    (ha : pathPresent env audio = false) :
    audioStage env audio = ("", []) := by
  cases audio with
  | none => rfl
  | some p =>
    simp only [pathPresent] at ha
    simp [audioStage, ha]

/-- A present audio path whose transcription raises yields the
substituted transcript and a single transcription call. -/
theorem audioStage_present_error (env : Env) (p e : String)
    (hp : pathPresent env (some p) = true)
    (ht : env.transcribeResult p = Except.error e) :
    audioStage env (some p) = (transcribeErrorText, [CallEvent.transcribeCall p]) := by
  simp only [pathPresent] at hp
  simp [audioStage, hp, ht]

/-- A present audio path always produces exactly one transcription call,
and on success the transcript is the transcription result. -/
theorem audioStage_present_trace (env : Env) (p : String)
    (hp : pathPresent env (some p) = true) :
    (audioStage env (some p)).2 = [CallEvent.transcribeCall p] ∧
    ∀ t, env.transcribeResult p = Except.ok t →
      (audioStage env (some p)).1 = t := by
  simp only [pathPresent] at hp
  cases ht : env.transcribeResult p with
  | ok t => simp [audioStage, hp, ht]
  | error e => simp [audioStage, hp, ht]

/-- An absent (null, empty, or non-existing) image path makes the image
block produce the sentinel response with no call. -/
theorem imageStage_absent (env : Env) (image : Option String) (stt : String)
    (hi : pathPresent env image = false) :
    imageStage env image stt = (noImageSentinel, []) := by
  cases image with
  | none => rfl
  | some p =>
    simp only [pathPresent] at hi
    simp [imageStage, hi]

/-- A present image path whose encoding succeeds puts the vision-query
call, with prompt `system_prompt ++ stt`, in the image block trace. -/
theorem imageStage_analyze_mem (env : Env) (q stt enc : String)
    (hq : pathPresent env (some q) = true)
    (he : env.encodeResult q = Except.ok enc) :
    CallEvent.analyzeCall (system_prompt ++ stt) enc visionModel
      ∈ (imageStage env (some q) stt).2 := by
  simp only [pathPresent] at hq
  cases ha : env.analyzeResult (system_prompt ++ stt) enc visionModel with
  | ok r => simp [imageStage, hq, he, ha]
  | error e => simp [imageStage, hq, he, ha]

/-- C3: when the audio file is present and transcription raises, the
returned transcript is exactly `"Error transcribing audio"`, and if an
image is also present and encodes successfully, the vision query is still
issued with that error string appended to the fixed system prompt. -/
theorem C3_transcription_error_continues (env : Env) (p : String)
    (image : Option String) (e : String)
    (hp : pathPresent env (some p) = true)
    (ht : env.transcribeResult p = Except.error e) :
    (process_inputs env (some p) image).transcript = transcribeErrorText ∧
    ∀ q enc, image = some q → pathPresent env (some q) = true →
      env.encodeResult q = Except.ok enc →
      CallEvent.analyzeCall (system_prompt ++ transcribeErrorText) enc visionModel
        ∈ (process_inputs env (some p) image).trace := by
  have ha := audioStage_present_error env p e hp ht
  constructor
  · show (audioStage env (some p)).1 = transcribeErrorText
    rw [ha]
  · intro q enc hiq hq he
    subst hiq
    have hmem := imageStage_analyze_mem env q transcribeErrorText enc hq he
    show _ ∈ (audioStage env (some p)).2 ++
        (imageStage env (some q) (audioStage env (some p)).1).2 ++
        (voiceStage env (imageStage env (some q) (audioStage env (some p)).1).1).2
    rw [ha]
    simp only [List.mem_append]
    exact Or.inl (Or.inr hmem)

/-- A concrete environment where transcription raises but everything
else succeeds. -/
def envC3 : Env :=
  { fsExists := fun _ => true
    transcribeResult := fun _ => Except.error "unsupported format"
    encodeResult := fun _ => Except.ok "ENCBYTES"
    analyzeResult := fun _ _ _ => Except.ok "With what I see, you are fine"
    elevenResult := fun _ _ => Except.ok ()
    gttsResult := fun _ _ => Except.ok () }

/-- C3 witness: at the concrete environment the transcript is the error
placeholder and the vision query with the error string appended is in
the trace. -/
theorem C3_transcription_error_continues_witness :
    (process_inputs envC3 (some "a.wav") (some "img.jpg")).transcript
        = transcribeErrorText ∧
    CallEvent.analyzeCall (system_prompt ++ transcribeErrorText) "ENCBYTES"
        visionModel
      ∈ (process_inputs envC3 (some "a.wav") (some "img.jpg")).trace :=
  have h := C3_transcription_error_continues envC3 "a.wav" (some "img.jpg")
    "unsupported format" (by decide) rfl
  ⟨h.1, h.2 "img.jpg" "ENCBYTES" rfl (by decide) rfl⟩

/-- The voice block never issues a vision-query call. -/
theorem voiceStage_no_analyze (env : Env) (r query enc m : String) :
    CallEvent.analyzeCall query enc m ∉ (voiceStage env r).2 := by
  unfold voiceStage
  cases hE : env.elevenResult r voiceOutputPath with
  | ok u => split <;> simp [hE]
  | error e =>
    cases hG : env.gttsResult r voiceOutputPath with
    | ok u => split <;> simp [hE, hG]
    | error e2 => split <;> simp [hE, hG]

/-- Every vision-query call issued by the image block carries exactly the
prompt `system_prompt ++ stt`. -/
theorem imageStage_analyze_query (env : Env) (image : Option String)
    (stt query enc m : String)
    (h : CallEvent.analyzeCall query enc m ∈ (imageStage env image stt).2) :
    query = system_prompt ++ stt := by
  cases image with
  | none => simp [imageStage] at h
  | some p =>
    by_cases hc : (!(p == "") && env.fsExists p) = true
    · cases he : env.encodeResult p with
      | error e => simp [imageStage, hc, he] at h
      | ok enc2 =>
        cases ha : env.analyzeResult (system_prompt ++ stt) enc2 visionModel with
        | ok r =>
          simp [imageStage, hc, he, ha] at h
          exact h.1
        | error e =>
          simp [imageStage, hc, he, ha] at h
          exact h.1
    · have hc' : (!(p == "") && env.fsExists p) = false := by
        cases hx : (!(p == "") && env.fsExists p) with
        | true => exact absurd hx hc
        | false => rfl
      simp [imageStage, hc'] at h

/-- Appending the empty transcript changes nothing in the prompt. -/
theorem string_append_empty (s : String) : s ++ "" = s := by
  cases s with
  | mk data => show String.mk (data ++ []) = String.mk data; rw [List.append_nil]

/-- C4: with an image present and no audio, the prompt sent to the
vision-query client is exactly the fixed system prompt: the successful
encode leads to a vision call whose query is `system_prompt`, and every
vision call of the run carries that exact query. -/
theorem C4_prompt_is_system_prompt (env : Env) (q : String)
    (audio : Option String)
    (ha : pathPresent env audio = false)
    (hq : pathPresent env (some q) = true) :
    (∀ enc, env.encodeResult q = Except.ok enc →
      CallEvent.analyzeCall system_prompt enc visionModel
        ∈ (process_inputs env audio (some q)).trace) ∧
    (∀ query enc m, CallEvent.analyzeCall query enc m
        ∈ (process_inputs env audio (some q)).trace → query = system_prompt) := by
  have haud := audioStage_absent env audio ha
  have htrace : (process_inputs env audio (some q)).trace =
      (audioStage env audio).2 ++
      (imageStage env (some q) (audioStage env audio).1).2 ++
      (voiceStage env (imageStage env (some q) (audioStage env audio).1).1).2 := rfl
  constructor
  · intro enc he
    have hmem := imageStage_analyze_mem env q "" enc hq he
    rw [string_append_empty] at hmem
    rw [htrace, haud]
    simp only [List.mem_append]
    exact Or.inl (Or.inr hmem)
  · intro query enc m hmem
    rw [htrace, haud] at hmem
    simp only [List.mem_append, List.not_mem_nil, false_or] at hmem
    cases hmem with
    | inl hin =>
      have := imageStage_analyze_query env (some q) "" query enc m (by
        have : (("", ([] : List CallEvent)) : String × List CallEvent).1 = "" := rfl
        exact hin)
      rw [string_append_empty] at this
      exact this
    | inr hin =>
      exact absurd hin (voiceStage_no_analyze env _ query enc m)

/-- A concrete environment where every external call succeeds. -/
def envAllOk : Env :=
  { fsExists := fun _ => true
    transcribeResult := fun _ => Except.ok "hi"
    encodeResult := fun _ => Except.ok "ENC"
    analyzeResult := fun _ _ _ => Except.ok "With what I see, rest well"
    elevenResult := fun _ _ => Except.ok ()
    gttsResult := fun _ _ => Except.ok () }

/-- C4 witness: the vision call with the bare system prompt is in the
trace of an image-only run at the concrete environment. -/
theorem C4_prompt_is_system_prompt_witness :
    CallEvent.analyzeCall system_prompt "ENC" visionModel
      ∈ (process_inputs envAllOk none (some "img.jpg")).trace :=
  (C4_prompt_is_system_prompt envAllOk "img.jpg" none rfl (by decide)).1 "ENC" rfl

/-- The sentinel response makes the voice block a no-op. -/
theorem voiceStage_sentinel (env : Env) :
    voiceStage env noImageSentinel = (none, []) := rfl

/-- C9: with audio present and no image, transcription is still
performed (on success the transcript is returned), the response is the
no-image sentinel, the audio path is null, and no synthesis call of
either provider occurs. -/
theorem C9_audio_only_sentinel (env : Env) (p : String)
    (image : Option String)
    (hp : pathPresent env (some p) = true)
    (hi : pathPresent env image = false) :
    CallEvent.transcribeCall p ∈ (process_inputs env (some p) image).trace ∧
    (∀ t, env.transcribeResult p = Except.ok t →
      (process_inputs env (some p) image).transcript = t) ∧
    (process_inputs env (some p) image).response = noImageSentinel ∧
    (process_inputs env (some p) image).voicePath = none ∧
    ∀ t pth, CallEvent.elevenCall t pth ∉ (process_inputs env (some p) image).trace ∧
      CallEvent.gttsCall t pth ∉ (process_inputs env (some p) image).trace := by
  have haud := audioStage_present_trace env p hp
  have himg := imageStage_absent env image (audioStage env (some p)).1 hi
  have htrace : (process_inputs env (some p) image).trace =
      (audioStage env (some p)).2 ++
      (imageStage env image (audioStage env (some p)).1).2 ++
      (voiceStage env (imageStage env image (audioStage env (some p)).1).1).2 := rfl
  have htr : (process_inputs env (some p) image).trace = [CallEvent.transcribeCall p] := by
    rw [htrace, haud.1, himg, voiceStage_sentinel]
    simp
  refine ⟨?_, ?_, ?_, ?_, ?_⟩
  · rw [htr]; exact List.mem_singleton.mpr rfl
  · intro t ht
    show (audioStage env (some p)).1 = t
    exact haud.2 t ht
  · show (imageStage env image (audioStage env (some p)).1).1 = noImageSentinel
    rw [himg]
  · show (voiceStage env (imageStage env image (audioStage env (some p)).1).1).1 = none
    rw [himg, voiceStage_sentinel]
  · intro t pth
    rw [htr]
    constructor <;> simp

/-- C9 witness: an audio-only run at the all-succeeding environment
transcribes but returns the sentinel and no audio artifact. -/
theorem C9_audio_only_sentinel_witness :
    CallEvent.transcribeCall "a.wav"
        ∈ (process_inputs envAllOk (some "a.wav") none).trace ∧
    (process_inputs envAllOk (some "a.wav") none).transcript = "hi" ∧
    (process_inputs envAllOk (some "a.wav") none).response = noImageSentinel ∧
    (process_inputs envAllOk (some "a.wav") none).voicePath = none :=
  have h := C9_audio_only_sentinel envAllOk "a.wav" none (by decide) rfl
  ⟨h.1, h.2.1 "hi" rfl, h.2.2.1, h.2.2.2.1⟩

/-- C10: a non-null path whose file does not exist behaves exactly like
an absent input: the whole run is unchanged when the dangling path is
replaced by null; a missing audio file yields the empty transcript, and
a missing image file yields the sentinel with a null audio artifact. -/
theorem C10_missing_file_like_absent (env : Env) (p q : String)
    (audio image : Option String)
    (hp : env.fsExists p = false) (hq : env.fsExists q = false) :
    process_inputs env (some p) image = process_inputs env none image ∧
    process_inputs env audio (some q) = process_inputs env audio none ∧
    (process_inputs env (some p) image).transcript = "" ∧
    (process_inputs env audio (some q)).response = noImageSentinel ∧
    (process_inputs env audio (some q)).voicePath = none := by
  have h1 : audioStage env (some p) = audioStage env none := by
    simp [audioStage, hp]
  have h2 : ∀ stt, imageStage env (some q) stt = imageStage env none stt := by
    intro stt
    simp [imageStage, hq]
  refine ⟨?_, ?_, ?_, ?_, ?_⟩
  · simp only [process_inputs]
    rw [h1]
  · simp only [process_inputs]
    rw [h2]
  · show (audioStage env (some p)).1 = ""
    rw [h1]
    rfl
  · show (imageStage env (some q) (audioStage env audio).1).1 = noImageSentinel
    rw [h2]
    rfl
  · show (voiceStage env (imageStage env (some q) (audioStage env audio).1).1).1 = none
    rw [h2]
    rfl

/-- C10 witness: with an empty filesystem, dangling paths behave as
absent inputs. -/
theorem C10_missing_file_like_absent_witness :
    process_inputs envAllFail (some "a.wav") none =
      process_inputs envAllFail none none ∧
    process_inputs envAllFail none (some "img.jpg") =
      process_inputs envAllFail none none ∧
    (process_inputs envAllFail (some "a.wav") none).transcript = "" ∧
    (process_inputs envAllFail none (some "img.jpg")).response = noImageSentinel ∧
    (process_inputs envAllFail none (some "img.jpg")).voicePath = none :=
  C10_missing_file_like_absent envAllFail "a.wav" "img.jpg" none none rfl rfl

/-- A truthy, non-sentinel response always triggers the primary
synthesis call. -/
theorem voiceStage_eleven_mem (env : Env) (r : String)
    (hr : r ≠ "") (hs : r ≠ noImageSentinel) :
    CallEvent.elevenCall r voiceOutputPath ∈ (voiceStage env r).2 := by
  have hcond : (!(r == "") && !(r == noImageSentinel)) = true := by
    simp [hr, hs]
  cases hE : env.elevenResult r voiceOutputPath with
  | ok u => simp [voiceStage, hcond, hE]
  | error e =>
    cases hG : env.gttsResult r voiceOutputPath with
    | ok u => simp [voiceStage, hcond, hE, hG]
    | error e2 => simp [voiceStage, hcond, hE, hG]

/-- Any synthesis call issued by the voice block carries exactly the
response text and the fixed output path, and only a truthy,
non-sentinel response issues one. -/
theorem voiceStage_tts_text (env : Env) (r t pth : String)
    (h : CallEvent.elevenCall t pth ∈ (voiceStage env r).2 ∨
         CallEvent.gttsCall t pth ∈ (voiceStage env r).2) :
    t = r ∧ pth = voiceOutputPath ∧ r ≠ "" ∧ r ≠ noImageSentinel := by
  by_cases hc : (!(r == "") && !(r == noImageSentinel)) = true
  · have hne : r ≠ "" ∧ r ≠ noImageSentinel := by
      constructor
      · intro he
        subst he
        simp at hc
      · intro he
        subst he
        simp at hc
    cases hE : env.elevenResult r voiceOutputPath with
    | ok u =>
      simp [voiceStage, hc, hE] at h
      exact ⟨h.1, h.2, hne⟩
    | error e =>
      cases hG : env.gttsResult r voiceOutputPath with
      | ok u =>
        simp [voiceStage, hc, hE, hG] at h
        exact ⟨h.1, h.2, hne⟩
      | error e2 =>
        simp [voiceStage, hc, hE, hG] at h
        exact ⟨h.1, h.2, hne⟩
  · have hc' : (!(r == "") && !(r == noImageSentinel)) = false := by
      cases hx : (!(r == "") && !(r == noImageSentinel)) with
      | true => exact absurd hx hc
      | false => rfl
    simp [voiceStage, hc'] at h

/-- The audio block never issues a synthesis call. -/
theorem audioStage_no_tts (env : Env) (audio : Option String) (t pth : String) :
    CallEvent.elevenCall t pth ∉ (audioStage env audio).2 ∧
    CallEvent.gttsCall t pth ∉ (audioStage env audio).2 := by
  cases audio with
  | none => simp [audioStage]
  | some p =>
    by_cases hc : (!(p == "") && env.fsExists p) = true
    · cases ht : env.transcribeResult p with
      | ok u => simp [audioStage, hc, ht]
      | error e => simp [audioStage, hc, ht]
    · have hc' : (!(p == "") && env.fsExists p) = false := by
        cases hx : (!(p == "") && env.fsExists p) with
        | true => exact absurd hx hc
        | false => rfl
      simp [audioStage, hc']

/-- The image block never issues a synthesis call. -/
theorem imageStage_no_tts (env : Env) (image : Option String)
    (stt t pth : String) :
    CallEvent.elevenCall t pth ∉ (imageStage env image stt).2 ∧
    CallEvent.gttsCall t pth ∉ (imageStage env image stt).2 := by
  cases image with
  | none => simp [imageStage]
  | some p =>
    by_cases hc : (!(p == "") && env.fsExists p) = true
    · cases he : env.encodeResult p with
      | error e => simp [imageStage, hc, he]
      | ok enc =>
        cases ha : env.analyzeResult (system_prompt ++ stt) enc visionModel with
        | ok r => simp [imageStage, hc, he, ha]
        | error e => simp [imageStage, hc, he, ha]
    · have hc' : (!(p == "") && env.fsExists p) = false := by
        cases hx : (!(p == "") && env.fsExists p) with
        | true => exact absurd hx hc
        | false => rfl
      simp [imageStage, hc']

/-- A present image whose encoding or analysis raises makes the image
block produce the substituted error response. -/
theorem imageStage_fails (env : Env) (q stt : String)
    (hq : pathPresent env (some q) = true)
    (hfail : (∃ e, env.encodeResult q = Except.error e) ∨
      (∃ enc e, env.encodeResult q = Except.ok enc ∧
        env.analyzeResult (system_prompt ++ stt) enc visionModel
          = Except.error e)) :
    (imageStage env (some q) stt).1 = analyzeErrorText := by
  simp only [pathPresent] at hq
  cases hfail with
  | inl h =>
    obtain ⟨e, he⟩ := h
    simp [imageStage, hq, he]
  | inr h =>
    obtain ⟨enc, e, he, ha⟩ := h
    simp [imageStage, hq, he, ha]

/-- C5: the synthesis-skip special case applies only to the no-image
sentinel: when image analysis raises, the response is the substituted
`"Error analyzing image"` and the primary synthesis call on that error
string is still issued, whereas no synthesis call (primary or fallback)
ever carries the sentinel text. -/
theorem C5_skip_only_for_sentinel (env : Env) (audio image : Option String) :
    (∀ q, image = some q → pathPresent env (some q) = true →
      ((∃ e, env.encodeResult q = Except.error e) ∨
       (∃ enc e, env.encodeResult q = Except.ok enc ∧
         env.analyzeResult (system_prompt ++ (audioStage env audio).1) enc
           visionModel = Except.error e)) →
      (process_inputs env audio image).response = analyzeErrorText ∧
      CallEvent.elevenCall analyzeErrorText voiceOutputPath
        ∈ (process_inputs env audio image).trace) ∧
    (∀ t pth, CallEvent.elevenCall t pth ∈ (process_inputs env audio image).trace →
      t ≠ noImageSentinel) ∧
    (∀ t pth, CallEvent.gttsCall t pth ∈ (process_inputs env audio image).trace →
      t ≠ noImageSentinel) := by
  have htrace : (process_inputs env audio image).trace =
      (audioStage env audio).2 ++
      (imageStage env image (audioStage env audio).1).2 ++
      (voiceStage env (imageStage env image (audioStage env audio).1).1).2 := rfl
  refine ⟨?_, ?_, ?_⟩
  · intro q hiq hq hfail
    subst hiq
    have hresp := imageStage_fails env q (audioStage env audio).1 hq hfail
    constructor
    · exact hresp
    · rw [htrace]
      simp only [List.mem_append]
      refine Or.inr ?_
      have := voiceStage_eleven_mem env analyzeErrorText (by decide) (by decide)
      rw [hresp]
      exact this
  · intro t pth hmem
    rw [htrace] at hmem
    simp only [List.mem_append] at hmem
    cases hmem with
    | inl hmem =>
      cases hmem with
      | inl hmem => exact absurd hmem (audioStage_no_tts env audio t pth).1
      | inr hmem => exact absurd hmem (imageStage_no_tts env image _ t pth).1
    | inr hmem =>
      have h := voiceStage_tts_text env _ t pth (Or.inl hmem)
      rw [h.1]
      exact h.2.2.2
  · intro t pth hmem
    rw [htrace] at hmem
    simp only [List.mem_append] at hmem
    cases hmem with
    | inl hmem =>
      cases hmem with
      | inl hmem => exact absurd hmem (audioStage_no_tts env audio t pth).2
      | inr hmem => exact absurd hmem (imageStage_no_tts env image _ t pth).2
    | inr hmem =>
      have h := voiceStage_tts_text env _ t pth (Or.inr hmem)
      rw [h.1]
      exact h.2.2.2

/-- A concrete environment where the image encodes but the vision query
raises, and synthesis succeeds. -/
def envC5 : Env :=
  { fsExists := fun _ => true
    transcribeResult := fun _ => Except.ok "hello"
    encodeResult := fun _ => Except.ok "ENC5"
    analyzeResult := fun _ _ _ => Except.error "auth failure"
    elevenResult := fun _ _ => Except.ok ()
    gttsResult := fun _ _ => Except.ok () }

/-- C5 witness: at the concrete environment the response is the analysis
error placeholder and the primary synthesis call on it is in the trace. -/
theorem C5_skip_only_for_sentinel_witness :
    (process_inputs envC5 none (some "img.jpg")).response = analyzeErrorText ∧
    CallEvent.elevenCall analyzeErrorText voiceOutputPath
      ∈ (process_inputs envC5 none (some "img.jpg")).trace :=
  (C5_skip_only_for_sentinel envC5 none (some "img.jpg")).1 "img.jpg" rfl
    (by decide) (Or.inr ⟨"ENC5", "auth failure", rfl, rfl⟩)

/-- The transcript is always the empty string, the error placeholder, or
a successful transcription result. -/
theorem audioStage_cases (env : Env) (audio : Option String) :
    (audioStage env audio).1 = "" ∨
    (audioStage env audio).1 = transcribeErrorText ∨
    ∃ p, audio = some p ∧
      env.transcribeResult p = Except.ok (audioStage env audio).1 := by
  cases audio with
  | none => exact Or.inl rfl
  | some p =>
    by_cases hc : (!(p == "") && env.fsExists p) = true
    · cases ht : env.transcribeResult p with
      | ok t =>
        refine Or.inr (Or.inr ⟨p, rfl, ?_⟩)
        rw [ht]
        simp [audioStage, hc, ht]
      | error e =>
        refine Or.inr (Or.inl ?_)
        simp [audioStage, hc, ht]
    · have hc' : (!(p == "") && env.fsExists p) = false := by
        cases hx : (!(p == "") && env.fsExists p) with
        | true => exact absurd hx hc
        | false => rfl
      exact Or.inl (by simp [audioStage, hc'])

/-- The response is always the sentinel, the error placeholder, or a
successful analysis result of the prompt built from the transcript. -/
theorem imageStage_cases (env : Env) (image : Option String) (stt : String) :
    (imageStage env image stt).1 = noImageSentinel ∨
    (imageStage env image stt).1 = analyzeErrorText ∨
    ∃ q enc, image = some q ∧ env.encodeResult q = Except.ok enc ∧
      env.analyzeResult (system_prompt ++ stt) enc visionModel
        = Except.ok (imageStage env image stt).1 := by
  cases image with
  | none => exact Or.inl rfl
  | some p =>
    by_cases hc : (!(p == "") && env.fsExists p) = true
    · cases he : env.encodeResult p with
      | error e =>
        refine Or.inr (Or.inl ?_)
        simp [imageStage, hc, he]
      | ok enc =>
        cases ha : env.analyzeResult (system_prompt ++ stt) enc visionModel with
        | ok r =>
          refine Or.inr (Or.inr ⟨p, enc, rfl, he, ?_⟩)
          rw [ha]
          simp [imageStage, hc, he, ha]
        | error e =>
          refine Or.inr (Or.inl ?_)
          simp [imageStage, hc, he, ha]
    · have hc' : (!(p == "") && env.fsExists p) = false := by
        cases hx : (!(p == "") && env.fsExists p) with
        | true => exact absurd hx hc
        | false => rfl
      exact Or.inl (by simp [imageStage, hc'])

/-- The returned audio path is always null or the fixed output file. -/
theorem voiceStage_cases (env : Env) (r : String) :
    (voiceStage env r).1 = none ∨ (voiceStage env r).1 = some voiceOutputPath := by
  by_cases hc : (!(r == "") && !(r == noImageSentinel)) = true
  · cases hE : env.elevenResult r voiceOutputPath with
    | ok u => exact Or.inr (by simp [voiceStage, hc, hE])
    | error e =>
      cases hG : env.gttsResult r voiceOutputPath with
      | ok u => exact Or.inr (by simp [voiceStage, hc, hE, hG])
      | error e2 => exact Or.inl (by simp [voiceStage, hc, hE, hG])
  · have hc' : (!(r == "") && !(r == noImageSentinel)) = false := by
      cases hx : (!(r == "") && !(r == noImageSentinel)) with
      | true => exact absurd hx hc
      | false => rfl
    exact Or.inl (by simp [voiceStage, hc'])

/-- C6: for every combination of external-call outcomes the pipeline is a
total function returning the triple, with each stage degraded to a
placeholder or a null artifact on failure: the transcript is empty, the
error placeholder, or a real transcription; the response is the
sentinel, the error placeholder, or a real analysis of the prompt built
from the returned transcript; the audio path is null or the fixed output
file. -/
theorem C6_total_graceful_degradation (env : Env) (audio image : Option String) :
    ((process_inputs env audio image).transcript = "" ∨
     (process_inputs env audio image).transcript = transcribeErrorText ∨
     ∃ p, audio = some p ∧ env.transcribeResult p
        = Except.ok (process_inputs env audio image).transcript) ∧
    ((process_inputs env audio image).response = noImageSentinel ∨
     (process_inputs env audio image).response = analyzeErrorText ∨
     ∃ q enc, image = some q ∧ env.encodeResult q = Except.ok enc ∧
       env.analyzeResult
           (system_prompt ++ (process_inputs env audio image).transcript)
           enc visionModel
         = Except.ok (process_inputs env audio image).response) ∧
    ((process_inputs env audio image).voicePath = none ∨
     (process_inputs env audio image).voicePath = some voiceOutputPath) :=
  ⟨audioStage_cases env audio,
   imageStage_cases env image (audioStage env audio).1,
   voiceStage_cases env (imageStage env image (audioStage env audio).1).1⟩

/-- C8 witness: with both stored paths null the handler warns, and with a
recorded audio path the pipeline run implies a non-null input. -/
theorem C8_analyze_guard_witness :
    analyzeHandler envAllOk none none = AnalyzeAction.warned ∧
    ((some "recorded_audio.mp3" : Option String) ≠ none ∨
     (none : Option String) ≠ none) :=
  ⟨(C8_analyze_guard envAllOk none none).1 ⟨rfl, rfl⟩,
   ((C8_analyze_guard envAllOk (some "recorded_audio.mp3") none).2
      (process_inputs envAllOk (some "recorded_audio.mp3") none) rfl).1⟩
